import Mathlib

/-!
Verification development for the unified MCP tool server
(`src/unnamed/part_001`, a TypeScript Express application exposing 10
MCP tools over a single `/mcp` endpoint).

The file embeds, shallowly:
  * a JSON value model and the `JSON.stringify` serializers the source uses,
  * the three-credential process environment,
  * the zod input/output schemas of the 10 registered tools,
  * each tool callback as a pure function of (environment, parsed
    arguments, upstream HTTP oracle) returning the list of upstream
    requests it issued together with its outcome,
  * the per-request dispatch of a single tool invocation.

Upstream HTTP is modelled as an oracle `HttpRequest → Except String Json`:
the callback records each request it issues, and the oracle's answer
stands for the provider's response (`Except.error` for a transport or
status failure, mirroring an axios rejection).
-/

namespace McpApp

/-- JSON values, as produced and consumed by the TypeScript source.
Numbers are modelled as integers (the source only sends integral
numbers: token budgets). -/
inductive Json where
  | null : Json
  | bool (b : Bool) : Json
  | num (n : Int) : Json
  | str (s : String) : Json
  | arr (elems : List Json) : Json
  | obj (fields : List (String × Json)) : Json

/-- Escape one character the way `JSON.stringify` does inside a string
literal. -/
def escapeChar (c : Char) : String :=
  if c = '"' then "\\\""
  else if c = '\\' then "\\\\"
  else if c = '\n' then "\\n"
  else if c = '\t' then "\\t"
  else if c = '\r' then "\\r"
  else if c.toNat < 32 then
    "\\u00" ++ String.mk [Nat.digitChar (c.toNat / 16), Nat.digitChar (c.toNat % 16)]
  else String.mk [c]

/-- A JSON string literal, `JSON.stringify` style. -/
def quoteString (s : String) : String :=
  "\"" ++ String.join (s.data.map escapeChar) ++ "\""

mutual

/-- Compact `JSON.stringify(x)` (no indent argument). -/
def Json.stringify : Json → String
  | .null => "null"
  | .bool true => "true"
  | .bool false => "false"
  | .num n => toString n
  | .str s => quoteString s
  | .arr es => "[" ++ stringifyList es ++ "]"
  | .obj fs => "\x7b" ++ stringifyFields fs ++ "\x7d"

/-- Elements of an array, comma separated. -/
def Json.stringifyList : List Json → String
  | [] => ""
  | [j] => Json.stringify j
  | j :: js => Json.stringify j ++ "," ++ stringifyList js

/-- Fields of an object, comma separated. -/
def Json.stringifyFields : List (String × Json) → String
  | [] => ""
  | [(k, v)] => quoteString k ++ ":" ++ Json.stringify v
  | (k, v) :: fs => quoteString k ++ ":" ++ Json.stringify v ++ "," ++ stringifyFields fs

end

/-- A run of `n` two-space indents: what `JSON.stringify(x, null, 2)`
puts before a nested item at depth `n`. -/
def ind (n : Nat) : String := String.join (List.replicate n "  ")

mutual

/-- Pretty `JSON.stringify(x, null, 2)` with a two-space indent, as
used by the Context7 tool callbacks. `d` is the current nesting
depth. -/
def Json.stringifyPretty (d : Nat) : Json → String
  | .null => "null"
  | .bool true => "true"
  | .bool false => "false"
  | .num n => toString n
  | .str s => quoteString s
  | .arr [] => "[]"
  | .arr (e :: es) =>
      "[\n" ++ stringifyPrettyList d (e :: es) ++ "\n" ++ ind d ++ "]"
  | .obj [] => "\x7b\x7d"
  | .obj (f :: fs) =>
      "\x7b\n" ++ stringifyPrettyFields d (f :: fs) ++ "\n" ++ ind d ++ "\x7d"

/-- Pretty array elements, one per line. -/
def Json.stringifyPrettyList (d : Nat) : List Json → String
  | [] => ""
  | [j] => ind (d + 1) ++ Json.stringifyPretty (d + 1) j
  | j :: js =>
      ind (d + 1) ++ Json.stringifyPretty (d + 1) j ++ ",\n" ++ stringifyPrettyList d js

/-- Pretty object fields, one per line. -/
def Json.stringifyPrettyFields (d : Nat) : List (String × Json) → String
  | [] => ""
  | [(k, v)] => ind (d + 1) ++ quoteString k ++ ": " ++ Json.stringifyPretty (d + 1) v
  | (k, v) :: fs =>
      ind (d + 1) ++ quoteString k ++ ": " ++ Json.stringifyPretty (d + 1) v ++ ",\n"
        ++ stringifyPrettyFields d fs

end

/-- First field of a JSON object with the given key, if any (JavaScript
property access on a parsed object). -/
def Json.getField : Json → String → Option Json
  | .obj fs, k => fs.lookup k
  | _, _ => none

/-- Index into a JSON array (JavaScript `xs[i]`). -/
def Json.getIndex : Json → Nat → Option Json
  | .arr es, i => es.get? i
  | _, _ => none

/-- Process configuration: the three provider credentials read from
`process.env` by the tool callbacks. `none` models an unset variable. -/
structure Env where
  CONTEXT7_API_KEY : Option String
  PERPLEXITY_API_KEY : Option String
  BRIGHTDATA_API_TOKEN : Option String
deriving DecidableEq, Repr

/-- One outbound `axios.post(url, body, { headers })` call. -/
structure HttpRequest where
  url : String
  body : Json
  headers : List (String × String)

/-- JavaScript `x || d` on an optional string (`undefined` and the empty
string are falsy), as in `engine || 'google'`. -/
def jsOrStr : Option String → String → String
  | none, d => d
  | some s, d => if s = "" then d else s

/-- JavaScript `x || d` on an optional number (`undefined` and `0` are
falsy), as in `tokens || 5000`. -/
def jsOrNum : Option Int → Int → Int
  | none, d => d
  | some n, d => if n = 0 then d else n

/-- The scalar zod constructors the source uses: `z.string()`,
`z.string().url()`, `z.number()`, `z.enum([...])`, `z.any()`. -/
inductive ZodPrim where
  | zstring : ZodPrim
  | zstringUrl : ZodPrim
  | znumber : ZodPrim
  | zenum (choices : List String) : ZodPrim
  | zany : ZodPrim
deriving DecidableEq, Repr

/-- An array element schema in the source: a scalar, or a flat object
of scalars with per-field optionality (`z.object({query: z.string(),
engine: z.enum([...]).optional()})`). The source nests no deeper. -/
inductive ZodElem where
  | prim (p : ZodPrim) : ZodElem
  | zobj (fields : List (String × ZodPrim × Bool)) : ZodElem
deriving DecidableEq, Repr

/-- A top-level parameter schema: a scalar, or `z.array(elem)` with an
optional `.max(n)`. -/
inductive ZodType where
  | prim (p : ZodPrim) : ZodType
  | zarray (elem : ZodElem) (maxLen : Option Nat) : ZodType
deriving DecidableEq, Repr

/-- A zod raw shape: field name, type, and whether the field is
`.optional()`. -/
abbrev ZodShape := List (String × ZodType × Bool)

/-- Modelled from the spec: `z.string().url()`'s "string format"
constraint (zod itself is an external dependency). A well-formed URL is
modelled as a string with an explicit scheme separator. -/
def isUrlLike (s : String) : Bool :=
  List.isPrefixOf "http://".data s.data || List.isPrefixOf "https://".data s.data

/-- Does `maxLen` allow a list of length `len` (`.max(n)`)? -/
def lenOk (maxLen : Option Nat) (len : Nat) : Bool :=
  match maxLen with
  | none => true
  | some m => len ≤ m

/-- Modelled from the spec: validation of one JSON value against a
scalar zod schema ("type mismatch, ... or constraint violation"; zod
itself is an external dependency). -/
def validatePrim : ZodPrim → Json → Bool
  | .zstring, .str _ => true
  | .zstringUrl, .str s => isUrlLike s
  | .znumber, .num _ => true
  | .zenum cs, .str s => cs.contains s
  | .zany, _ => true
  | _, _ => false

/-- Validation of one array element: a scalar, or a flat object whose
declared fields are each present and valid or absent and optional. -/
def validateElem : ZodElem → Json → Bool
  | .prim p, j => validatePrim p j
  | .zobj fs, .obj o =>
      fs.all (fun f =>
        match o.lookup f.1 with
        | some v => validatePrim f.2.1 v
        | none => f.2.2)
  | .zobj _, _ => false

/-- Validation of one JSON value against a top-level parameter
schema. -/
def validate : ZodType → Json → Bool
  | .prim p, j => validatePrim p j
  | .zarray t ml, .arr es => lenOk ml es.length && es.all (validateElem t)
  | .zarray _ _, _ => false

/-- Each declared field of a raw shape is present and valid, or absent
and optional. Fields of the argument object not named in the shape are
ignored (zod strips unknown keys). -/
def validateShape (shape : ZodShape) (o : List (String × Json)) : Bool :=
  shape.all (fun f =>
    match o.lookup f.1 with
    | some v => validate f.2.1 v
    | none => f.2.2)

/-- An invocation's arguments validate against a tool's raw input
shape. -/
def validArgs (shape : ZodShape) (args : Json) : Bool :=
  match args with
  | .obj o => validateShape shape o
  | _ => false

/-- The three provider groups of the unified server. -/
inductive Group where
  | context7 : Group
  | perplexity : Group
  | brightdata : Group
deriving DecidableEq, Repr

/-- Which credential a group's callbacks read from the environment. -/
def groupCred (env : Env) : Group → Option String
  | .context7 => env.CONTEXT7_API_KEY
  | .perplexity => env.PERPLEXITY_API_KEY
  | .brightdata => env.BRIGHTDATA_API_TOKEN

/-- The name of the environment variable holding a group's
credential. -/
def groupCredName : Group → String
  | .context7 => "CONTEXT7_API_KEY"
  | .perplexity => "PERPLEXITY_API_KEY"
  | .brightdata => "BRIGHTDATA_API_TOKEN"

/-- One entry of the tool catalog: the metadata and schemas passed to
`server.registerTool`. -/
structure ToolDescriptor where
  name : String
  title : String
  description : String
  group : Group
  inputSchema : ZodShape
  outputSchema : ZodShape
deriving DecidableEq

/-- Replace the first (leftmost) occurrence of `pat` in a character
list by `rep`. -/
def replaceFirstAux (pat rep : List Char) : List Char → List Char
  | [] => []
  | c :: cs =>
      if pat.isPrefixOf (c :: cs) then rep ++ (c :: cs).drop pat.length
      else c :: replaceFirstAux pat rep cs

/-- JavaScript `s.replace(pat, rep)` with a plain-string pattern:
replaces the first occurrence only. -/
def replaceFirst (s pat rep : String) : String :=
  String.mk (replaceFirstAux pat.data rep.data s.data)

/-- JavaScript `s.replace(/([A-Z])/g, ' $1')`: a space before every
ASCII capital. -/
def spaceBeforeCaps (s : String) : String :=
  String.mk (s.data.foldr (fun c acc => if c.isUpper then ' ' :: c :: acc else c :: acc) [])

/-- JavaScript `s.trim()`: whitespace stripped from both ends. -/
def jsTrim (s : String) : String :=
  String.mk ((((s.data.dropWhile Char.isWhitespace).reverse).dropWhile
    Char.isWhitespace).reverse)

/-- The static research-group mapping `perplexityModels` from tool name
to upstream model identifier, in source (insertion) order. -/
def perplexityModels : List (String × String) :=
  [("perplexity_search", "sonar"),
   ("perplexity_ask", "sonar-pro"),
   ("perplexity_research", "sonar-deep-research"),
   ("perplexity_reason", "sonar-reasoning-pro")]

/-- The enum choices of the `engine` parameter. -/
def engineChoices : List String := ["google", "bing", "yandex"]

/-- Descriptor of `mcp__context7__resolve-library-id`. -/
def resolveLibraryIdTool : ToolDescriptor where
  name := "mcp__context7__resolve-library-id"
  title := "Resolve Library ID"
  description := "Resolve a library name to a Context7-compatible library ID"
  group := .context7
  inputSchema := [("libraryName", .prim .zstring, false)]
  outputSchema := [("libraries", .zarray (.prim .zany) none, false)]

/-- Descriptor of `mcp__context7__get-library-docs`. -/
def getLibraryDocsTool : ToolDescriptor where
  name := "mcp__context7__get-library-docs"
  title := "Get Library Documentation"
  description := "Fetch documentation for a library using Context7"
  group := .context7
  inputSchema := [("context7CompatibleLibraryID", .prim .zstring, false),
                  ("topic", .prim .zstring, true),
                  ("tokens", .prim .znumber, true)]
  outputSchema := [("documentation", .prim .zany, false)]

/-- Descriptor built inside the `Object.entries(perplexityModels).forEach`
loop for one research tool. -/
def perplexityDescriptor (toolName model : String) : ToolDescriptor where
  name := toolName
  title := jsTrim (spaceBeforeCaps (replaceFirst toolName "perplexity_" "Perplexity "))
  description := replaceFirst toolName "perplexity_" "" ++ " using " ++ model ++ " model"
  group := .perplexity
  inputSchema := [("query", .prim .zstring, false)]
  outputSchema := [("response", .prim .zstring, false)]

/-- Descriptor of `mcp__brightdata__search_engine`. -/
def searchEngineTool : ToolDescriptor where
  name := "mcp__brightdata__search_engine"
  title := "BrightData Search Engine"
  description := "Search engine SERP results (Google/Bing/Yandex)"
  group := .brightdata
  inputSchema := [("query", .prim .zstring, false), ("engine", .prim (.zenum engineChoices), true)]
  outputSchema := [("results", .zarray (.prim .zany) none, false)]

/-- Descriptor of `mcp__brightdata__scrape_as_markdown`. -/
def scrapeAsMarkdownTool : ToolDescriptor where
  name := "mcp__brightdata__scrape_as_markdown"
  title := "BrightData Scrape as Markdown"
  description := "Scrape webpage and convert to markdown"
  group := .brightdata
  inputSchema := [("url", .prim .zstringUrl, false)]
  outputSchema := [("markdown", .prim .zstring, false)]

/-- Descriptor of `mcp__brightdata__scrape_batch`. -/
def scrapeBatchTool : ToolDescriptor where
  name := "mcp__brightdata__scrape_batch"
  title := "BrightData Batch Scrape"
  description := "Scrape multiple URLs"
  group := .brightdata
  inputSchema := [("urls", .zarray (.prim .zstringUrl) (some 10), false)]
  outputSchema := [("results", .zarray (.prim .zany) none, false)]

/-- Descriptor of `mcp__brightdata__search_engine_batch`. -/
def searchEngineBatchTool : ToolDescriptor where
  name := "mcp__brightdata__search_engine_batch"
  title := "BrightData Batch Search"
  description := "Batch search engine queries"
  group := .brightdata
  inputSchema := [("queries",
      .zarray (.zobj [("query", .zstring, false), ("engine", .zenum engineChoices, true)])
        (some 10), false)]
  outputSchema := [("results", .zarray (.prim .zany) none, false)]

/-- The registry one Protocol Server Instance holds after the ten
`server.registerTool` calls, in registration order: Context7 (2),
Perplexity (4, via the `forEach` over `perplexityModels`),
BrightData (4). It is a constant: every request builds the same
catalog. -/
def registry : List ToolDescriptor :=
  [resolveLibraryIdTool, getLibraryDocsTool]
    ++ perplexityModels.map (fun p => perplexityDescriptor p.1 p.2)
    ++ [searchEngineTool, scrapeAsMarkdownTool, scrapeBatchTool, searchEngineBatchTool]

/-- The answer to a "list tools" query: name, description and the two
schemas of every registered tool, in registry order. -/
def listTools : List (String × String × ZodShape × ZodShape) :=
  registry.map (fun d => (d.name, d.description, d.inputSchema, d.outputSchema))

/-- The credential check `const k = process.env.X; if (!k) throw ...`
is a JavaScript truthiness test: an unset variable and the empty string
both fail it. `presentCred` is `some` exactly when the check passes. -/
def presentCred : Option String → Option String
  | none => none
  | some s => if s = "" then none else some s

/-- What a callback returns on its success path: the one text content
entry and the structured output object (the source always returns
`content: [{type: 'text', text: ...}], structuredContent: output`). -/
structure ToolSuccess where
  contentText : String
  structuredContent : Json

/-- The upstream HTTP collaborator: answers one `axios.post` with a
response body, or fails (a rejected promise: transport failure or
non-2xx status). -/
abbrev Upstream := HttpRequest → Except String Json

/-- A callback run: the upstream requests it issued, in order, and its
outcome. `Except.error msg` models a thrown `Error(msg)`. -/
abbrev CallbackResult := List HttpRequest × Except String ToolSuccess

/-- Callback of `mcp__context7__resolve-library-id`. -/
def resolveLibraryIdCallback (env : Env) (libraryName : String) (up : Upstream) :
    CallbackResult :=
  match presentCred env.CONTEXT7_API_KEY with
  | none => ([], .error "CONTEXT7_API_KEY not configured")
  | some apiKey =>
    let req : HttpRequest :=
      { url := "https://context7.upstash.io/api/v1/search"
        body := .obj [("query", .str libraryName)]
        headers := [("Authorization", "Bearer " ++ apiKey)] }
    match up req with
    | .error e => ([req], .error e)
    | .ok data =>
      let output := Json.obj [("libraries", data)]
      ([req], .ok { contentText := output.stringifyPretty 0, structuredContent := output })

/-- Callback of `mcp__context7__get-library-docs`. An omitted `topic`
is dropped from the serialized request body (JSON.stringify omits
`undefined` fields); `tokens || 5000` treats both an omitted and a zero
budget as falsy. -/
def getLibraryDocsCallback (env : Env) (libraryID : String) (topic : Option String)
    (tokens : Option Int) (up : Upstream) : CallbackResult :=
  match presentCred env.CONTEXT7_API_KEY with
  | none => ([], .error "CONTEXT7_API_KEY not configured")
  | some apiKey =>
    let req : HttpRequest :=
      { url := "https://context7.upstash.io/api/v1/docs"
        body := .obj ([("libraryId", Json.str libraryID)]
          ++ (match topic with | some t => [("topic", Json.str t)] | none => [])
          ++ [("maxTokens", Json.num (jsOrNum tokens 5000))])
        headers := [("Authorization", "Bearer " ++ apiKey)] }
    match up req with
    | .error e => ([req], .error e)
    | .ok data =>
      let output := Json.obj [("documentation", data)]
      ([req], .ok { contentText := output.stringifyPretty 0, structuredContent := output })

/-- The access path `response.data.choices[0].message.content`, step
by step. `none` when some step hits a missing property (a TypeError in
JavaScript). -/
def extractAnswer (data : Json) : Option Json :=
  match data.getField "choices" with
  | none => none
  | some cs =>
    match cs.getIndex 0 with
    | none => none
    | some c0 =>
      match c0.getField "message" with
      | none => none
      | some m => m.getField "content"

/-- The shared callback of the four research tools, closed over the
`model` chosen by the `forEach` over `perplexityModels`. A missing step
of `choices[0].message.content` is a thrown TypeError, hence an error
outcome. -/
def perplexityCallback (model : String) (env : Env) (query : String) (up : Upstream) :
    CallbackResult :=
  match presentCred env.PERPLEXITY_API_KEY with
  | none => ([], .error "PERPLEXITY_API_KEY not configured")
  | some apiKey =>
    let req : HttpRequest :=
      { url := "https://api.perplexity.ai/chat/completions"
        body := .obj [("model", .str model),
          ("messages", .arr [.obj [("role", .str "user"), ("content", .str query)]])]
        headers := [("Authorization", "Bearer " ++ apiKey),
                    ("Content-Type", "application/json")] }
    match up req with
    | .error e => ([req], .error e)
    | .ok data =>
      match extractAnswer data with
      | none => ([req], .error "Cannot read properties of undefined")
      | some answer =>
        let output := Json.obj [("response", answer)]
        ([req], .ok { contentText := output.stringify, structuredContent := output })

/-- Callback of `mcp__brightdata__search_engine`. The adapter is a
stub: it checks the credential, then builds its result locally with no
upstream call. `engine || 'google'` supplies the default. -/
def searchEngineCallback (env : Env) (query : String) (engine : Option String)
    (_up : Upstream) : CallbackResult :=
  match presentCred env.BRIGHTDATA_API_TOKEN with
  | none => ([], .error "BRIGHTDATA_API_TOKEN not configured")
  | some _ =>
    let output := Json.obj
      [("results", .arr [.str ("Searched " ++ jsOrStr engine "google" ++ " for: " ++ query)])]
    ([], .ok { contentText := output.stringify, structuredContent := output })

/-- Callback of `mcp__brightdata__scrape_as_markdown` (stub, no
upstream call). -/
def scrapeAsMarkdownCallback (env : Env) (url : String) (_up : Upstream) : CallbackResult :=
  match presentCred env.BRIGHTDATA_API_TOKEN with
  | none => ([], .error "BRIGHTDATA_API_TOKEN not configured")
  | some _ =>
    let output := Json.obj [("markdown", .str ("Scraped content from " ++ url))]
    ([], .ok { contentText := output.stringify, structuredContent := output })

/-- Callback of `mcp__brightdata__scrape_batch` (stub, no upstream
call). -/
def scrapeBatchCallback (env : Env) (urls : List String) (_up : Upstream) : CallbackResult :=
  match presentCred env.BRIGHTDATA_API_TOKEN with
  | none => ([], .error "BRIGHTDATA_API_TOKEN not configured")
  | some _ =>
    let output := Json.obj [("results", .arr (urls.map (fun url =>
      .obj [("url", .str url), ("status", .str "scraped")])))]
    ([], .ok { contentText := output.stringify, structuredContent := output })

/-- Callback of `mcp__brightdata__search_engine_batch` (stub, no
upstream call); each query's `engine || 'google'`. -/
def searchEngineBatchCallback (env : Env) (queries : List (String × Option String))
    (_up : Upstream) : CallbackResult :=
  match presentCred env.BRIGHTDATA_API_TOKEN with
  | none => ([], .error "BRIGHTDATA_API_TOKEN not configured")
  | some _ =>
    let output := Json.obj [("results", .arr (queries.map (fun q =>
      .obj [("query", .str q.1), ("engine", .str (jsOrStr q.2 "google"))])))]
    ([], .ok { contentText := output.stringify, structuredContent := output })

/-- A string-valued field of the argument object, when present and a
string. -/
def Json.getStr (j : Json) (k : String) : Option String :=
  match j.getField k with
  | some (.str s) => some s
  | _ => none

/-- A number-valued field of the argument object, when present and a
number. -/
def Json.getNum (j : Json) (k : String) : Option Int :=
  match j.getField k with
  | some (.num n) => some n
  | _ => none

/-- The string elements of an array-valued field. Dispatch only reaches
a callback after validation, under which every element is a string. -/
def Json.getStrList (j : Json) (k : String) : List String :=
  match j.getField k with
  | some (.arr es) => es.filterMap (fun e => match e with | .str s => some s | _ => none)
  | _ => []

/-- The `{query, engine?}` pairs of an array-valued field (validated
before the callback runs). -/
def Json.getQueryList (j : Json) (k : String) : List (String × Option String) :=
  match j.getField k with
  | some (.arr es) => es.map (fun e => ((e.getStr "query").getD "", e.getStr "engine"))
  | _ => []

/-- Run the callback registered under `name` on the validated argument
object, destructuring the fields each source callback names. Dispatch
never reaches the final catch-all. -/
def runTool (name : String) (env : Env) (args : Json) (up : Upstream) : CallbackResult :=
  if name = "mcp__context7__resolve-library-id" then
    resolveLibraryIdCallback env ((args.getStr "libraryName").getD "") up
  else if name = "mcp__context7__get-library-docs" then
    getLibraryDocsCallback env ((args.getStr "context7CompatibleLibraryID").getD "")
      (args.getStr "topic") (args.getNum "tokens") up
  else
    match perplexityModels.lookup name with
    | some model => perplexityCallback model env ((args.getStr "query").getD "") up
    | none =>
      if name = "mcp__brightdata__search_engine" then
        searchEngineCallback env ((args.getStr "query").getD "") (args.getStr "engine") up
      else if name = "mcp__brightdata__scrape_as_markdown" then
        scrapeAsMarkdownCallback env ((args.getStr "url").getD "") up
      else if name = "mcp__brightdata__scrape_batch" then
        scrapeBatchCallback env (args.getStrList "urls") up
      else if name = "mcp__brightdata__search_engine_batch" then
        searchEngineBatchCallback env (args.getQueryList "queries") up
      else ([], .error ("Tool " ++ name ++ " not found"))

/-- Protocol-level error classifications (JSON-RPC error codes). -/
inductive ErrClass where
  | methodNotFound : ErrClass
  | invalidParams : ErrClass
deriving DecidableEq, Repr

/-- Outcome of dispatching one invocation: a top-level protocol error,
or a success-shaped tool result — the latter carries the "is error"
flag, its single text content entry, and the structured output when the
call succeeded. -/
inductive Outcome where
  | protocolError (cls : ErrClass) (message : String) : Outcome
  | toolResult (isError : Bool) (contentText : String) (structured : Option Json) : Outcome

/-- Registry lookup by tool name. -/
def lookupTool (name : String) : Option ToolDescriptor :=
  registry.find? (fun d => d.name == name)

/-- Modelled from the spec: how the protocol server wraps an adapter's
outcome. A thrown error becomes a success-shaped result marked
`isError` whose text is the error message ("Tool-level failures ... are
returned as successful protocol responses whose payload is marked
is error"); a structured output not conforming to the tool's declared
output schema is likewise converted to an `isError` result rather than
escaping. -/
def wrapOutcome (d : ToolDescriptor) : CallbackResult → List HttpRequest × Outcome
  | (reqs, .error msg) => (reqs, .toolResult true msg none)
  | (reqs, .ok s) =>
    if validArgs d.outputSchema s.structuredContent then
      (reqs, .toolResult false s.contentText (some s.structuredContent))
    else
      (reqs, .toolResult true "Invalid structured content" none)

/-- Modelled from the spec: the Protocol Server Instance's dispatch of
the single invocation carried by a request (the MCP SDK's tool-call
handler is an external dependency; the spec fixes its contract).
Steps: (1) registry lookup — an unknown name is an immediate
"method not found" protocol error and no adapter runs; (2) zod
validation of the argument mapping — a violation is an immediate
"invalid params" protocol error and no adapter runs; (3) the adapter
runs and its outcome is wrapped by `wrapOutcome`. -/
def dispatch (env : Env) (up : Upstream) (name : String) (args : Json) :
    List HttpRequest × Outcome :=
  match lookupTool name with
  | none => ([], .protocolError .methodNotFound ("Tool " ++ name ++ " not found"))
  | some d =>
    if validArgs d.inputSchema args then
      wrapOutcome d (runTool name env args up)
    else
      ([], .protocolError .invalidParams ("Invalid arguments for tool " ++ name))

/-! ## Helper lemmas -/

/-- Every registry member is one of the ten registered descriptors. -/
theorem mem_registry_elim (d : ToolDescriptor) (hd : d ∈ registry) :
    d = resolveLibraryIdTool ∨ d = getLibraryDocsTool ∨
    d = perplexityDescriptor "perplexity_search" "sonar" ∨
    d = perplexityDescriptor "perplexity_ask" "sonar-pro" ∨
    d = perplexityDescriptor "perplexity_research" "sonar-deep-research" ∨
    d = perplexityDescriptor "perplexity_reason" "sonar-reasoning-pro" ∨
    d = searchEngineTool ∨ d = scrapeAsMarkdownTool ∨
    d = scrapeBatchTool ∨ d = searchEngineBatchTool := by
  simp only [registry, perplexityModels, List.map, List.cons_append, List.nil_append,
    List.mem_cons, List.not_mem_nil, or_false] at hd
  exact hd

theorem lookup_resolve :
    lookupTool "mcp__context7__resolve-library-id" = some resolveLibraryIdTool := rfl

theorem lookup_docs :
    lookupTool "mcp__context7__get-library-docs" = some getLibraryDocsTool := rfl

theorem lookup_psearch :
    lookupTool "perplexity_search" = some (perplexityDescriptor "perplexity_search" "sonar") := rfl

theorem lookup_pask :
    lookupTool "perplexity_ask" = some (perplexityDescriptor "perplexity_ask" "sonar-pro") := rfl

theorem lookup_presearch :
    lookupTool "perplexity_research" =
      some (perplexityDescriptor "perplexity_research" "sonar-deep-research") := rfl

theorem lookup_preason :
    lookupTool "perplexity_reason" =
      some (perplexityDescriptor "perplexity_reason" "sonar-reasoning-pro") := rfl

theorem lookup_sengine :
    lookupTool "mcp__brightdata__search_engine" = some searchEngineTool := rfl

theorem lookup_smd :
    lookupTool "mcp__brightdata__scrape_as_markdown" = some scrapeAsMarkdownTool := rfl

theorem lookup_sbatch :
    lookupTool "mcp__brightdata__scrape_batch" = some scrapeBatchTool := rfl

theorem lookup_qbatch :
    lookupTool "mcp__brightdata__search_engine_batch" = some searchEngineBatchTool := rfl

theorem runTool_resolve (env : Env) (args : Json) (up : Upstream) :
    runTool "mcp__context7__resolve-library-id" env args up =
      resolveLibraryIdCallback env ((args.getStr "libraryName").getD "") up := rfl

theorem runTool_docs (env : Env) (args : Json) (up : Upstream) :
    runTool "mcp__context7__get-library-docs" env args up =
      getLibraryDocsCallback env ((args.getStr "context7CompatibleLibraryID").getD "")
        (args.getStr "topic") (args.getNum "tokens") up := rfl

theorem runTool_psearch (env : Env) (args : Json) (up : Upstream) :
    runTool "perplexity_search" env args up =
      perplexityCallback "sonar" env ((args.getStr "query").getD "") up := rfl

theorem runTool_pask (env : Env) (args : Json) (up : Upstream) :
    runTool "perplexity_ask" env args up =
      perplexityCallback "sonar-pro" env ((args.getStr "query").getD "") up := rfl

theorem runTool_presearch (env : Env) (args : Json) (up : Upstream) :
    runTool "perplexity_research" env args up =
      perplexityCallback "sonar-deep-research" env ((args.getStr "query").getD "") up := rfl

theorem runTool_preason (env : Env) (args : Json) (up : Upstream) :
    runTool "perplexity_reason" env args up =
      perplexityCallback "sonar-reasoning-pro" env ((args.getStr "query").getD "") up := rfl

theorem runTool_sengine (env : Env) (args : Json) (up : Upstream) :
    runTool "mcp__brightdata__search_engine" env args up =
      searchEngineCallback env ((args.getStr "query").getD "") (args.getStr "engine") up := rfl

theorem runTool_smd (env : Env) (args : Json) (up : Upstream) :
    runTool "mcp__brightdata__scrape_as_markdown" env args up =
      scrapeAsMarkdownCallback env ((args.getStr "url").getD "") up := rfl

theorem runTool_sbatch (env : Env) (args : Json) (up : Upstream) :
    runTool "mcp__brightdata__scrape_batch" env args up =
      scrapeBatchCallback env (args.getStrList "urls") up := rfl

theorem runTool_qbatch (env : Env) (args : Json) (up : Upstream) :
    runTool "mcp__brightdata__search_engine_batch" env args up =
      searchEngineBatchCallback env (args.getQueryList "queries") up := rfl

/-- Dispatch on a registered name with valid arguments runs the
adapter and wraps its outcome. -/
theorem dispatch_eq_of_valid {name : String} {d : ToolDescriptor}
    (h : lookupTool name = some d) (env : Env) (up : Upstream) (args : Json)
    (hv : validArgs d.inputSchema args = true) :
    dispatch env up name args = wrapOutcome d (runTool name env args up) := by
  unfold dispatch
  rw [h]
  dsimp only
  rw [hv]
  simp

/-- Dispatch on a registered name with invalid arguments is an
immediate "invalid params" protocol error. -/
theorem dispatch_eq_of_invalid {name : String} {d : ToolDescriptor}
    (h : lookupTool name = some d) (env : Env) (up : Upstream) (args : Json)
    (hv : validArgs d.inputSchema args = false) :
    dispatch env up name args =
      ([], .protocolError .invalidParams ("Invalid arguments for tool " ++ name)) := by
  unfold dispatch
  rw [h]
  dsimp only
  rw [hv]
  simp

/-- Dispatch on an unregistered name is an immediate "method not
found" protocol error. -/
theorem dispatch_eq_of_unknown {name : String} (h : lookupTool name = none)
    (env : Env) (up : Upstream) (args : Json) :
    dispatch env up name args =
      ([], .protocolError .methodNotFound ("Tool " ++ name ++ " not found")) := by
  unfold dispatch
  rw [h]

/-- A name outside the registered ten has no registry entry. -/
theorem lookupTool_eq_none {name : String}
    (h : name ∉ registry.map (fun d => d.name)) : lookupTool name = none := by
  unfold lookupTool
  rw [List.find?_eq_none]
  intro x hx hbeq
  exact h (List.mem_map.mpr ⟨x, hx, by simpa using hbeq⟩)

/-- Wrapping never changes the upstream request trace. -/
theorem wrapOutcome_fst (d : ToolDescriptor) (p : CallbackResult) :
    (wrapOutcome d p).1 = p.1 := by
  rcases p with ⟨rs, res⟩
  cases res with
  | error m => rfl
  | ok s =>
    dsimp only [wrapOutcome]
    split <;> rfl

/-- A thrown adapter error is wrapped as an `isError` tool result. -/
theorem wrapOutcome_error (d : ToolDescriptor) (p : CallbackResult) (m : String)
    (h : p.2 = .error m) : wrapOutcome d p = (p.1, .toolResult true m none) := by
  rcases p with ⟨rs, res⟩
  dsimp only at h
  subst h
  rfl

/-- The wrapped outcome is always success-shaped: a tool result, never
a protocol error. -/
theorem wrapOutcome_shape (d : ToolDescriptor) (p : CallbackResult) :
    ∃ isErr txt st, (wrapOutcome d p).2 = .toolResult isErr txt st := by
  rcases p with ⟨rs, res⟩
  cases res with
  | error m => exact ⟨true, m, none, rfl⟩
  | ok s =>
    dsimp only [wrapOutcome]
    by_cases hov : validArgs d.outputSchema s.structuredContent = true
    · rw [if_pos hov]
      exact ⟨false, s.contentText, some s.structuredContent, rfl⟩
    · rw [if_neg hov]
      exact ⟨true, "Invalid structured content", none, rfl⟩

/-- Inversion: a non-error tool result comes from an adapter success
whose structured output conforms to the declared output schema. -/
theorem wrapOutcome_success_inv (d : ToolDescriptor) (p : CallbackResult)
    (reqs : List HttpRequest) (txt : String) (st : Option Json)
    (h : wrapOutcome d p = (reqs, .toolResult false txt st)) :
    ∃ s, p = (reqs, .ok s) ∧ txt = s.contentText ∧ st = some s.structuredContent ∧
      validArgs d.outputSchema s.structuredContent = true := by
  rcases p with ⟨rs, res⟩
  cases res with
  | error m =>
    injection h with h1 h2
    exact absurd h2 (by simp)
  | ok s =>
    dsimp only [wrapOutcome] at h
    by_cases hov : validArgs d.outputSchema s.structuredContent = true
    · rw [if_pos hov] at h
      injection h with h1 h2
      simp only [Outcome.toolResult.injEq] at h2
      obtain ⟨-, hct, hst⟩ := h2
      exact ⟨s, by rw [h1], hct.symm, hst.symm, hov⟩
    · rw [if_neg hov] at h
      injection h with h1 h2
      exact absurd h2 (by simp)

/-- A non-error tool result of dispatch on a registered name carries a
conformant structured output, the single text entry being the
callback's serialization of it. -/
theorem dispatch_success_inv {name : String} {d : ToolDescriptor}
    (h : lookupTool name = some d) {env : Env} {up : Upstream} {args : Json}
    {reqs : List HttpRequest} {txt : String} {st : Option Json}
    (hd : dispatch env up name args = (reqs, .toolResult false txt st)) :
    validArgs d.inputSchema args = true ∧
    ∃ s, runTool name env args up = (reqs, .ok s) ∧ txt = s.contentText ∧
      st = some s.structuredContent ∧
      validArgs d.outputSchema s.structuredContent = true := by
  by_cases hv : validArgs d.inputSchema args = true
  · rw [dispatch_eq_of_valid h env up args hv] at hd
    exact ⟨hv, wrapOutcome_success_inv d _ reqs txt st hd⟩
  · have hv' : validArgs d.inputSchema args = false := by
      revert hv
      cases validArgs d.inputSchema args <;> simp
    rw [dispatch_eq_of_invalid h env up args hv'] at hd
    injection hd with h1 h2
    exact absurd h2 (by simp)

section CallbackLemmas

variable (env env1 env2 : Env) (up : Upstream)

theorem resolveCb_nocred (q : String) (hc : presentCred env.CONTEXT7_API_KEY = none) :
    resolveLibraryIdCallback env q up = ([], .error "CONTEXT7_API_KEY not configured") := by
  unfold resolveLibraryIdCallback; rw [hc]

theorem docsCb_nocred (i : String) (t : Option String) (n : Option Int)
    (hc : presentCred env.CONTEXT7_API_KEY = none) :
    getLibraryDocsCallback env i t n up = ([], .error "CONTEXT7_API_KEY not configured") := by
  unfold getLibraryDocsCallback; rw [hc]

theorem perplexityCb_nocred (model q : String)
    (hc : presentCred env.PERPLEXITY_API_KEY = none) :
    perplexityCallback model env q up = ([], .error "PERPLEXITY_API_KEY not configured") := by
  unfold perplexityCallback; rw [hc]

theorem sengineCb_nocred (q : String) (e : Option String)
    (hc : presentCred env.BRIGHTDATA_API_TOKEN = none) :
    searchEngineCallback env q e up = ([], .error "BRIGHTDATA_API_TOKEN not configured") := by
  unfold searchEngineCallback; rw [hc]

theorem smdCb_nocred (u : String) (hc : presentCred env.BRIGHTDATA_API_TOKEN = none) :
    scrapeAsMarkdownCallback env u up = ([], .error "BRIGHTDATA_API_TOKEN not configured") := by
  unfold scrapeAsMarkdownCallback; rw [hc]

theorem sbatchCb_nocred (us : List String)
    (hc : presentCred env.BRIGHTDATA_API_TOKEN = none) :
    scrapeBatchCallback env us up = ([], .error "BRIGHTDATA_API_TOKEN not configured") := by
  unfold scrapeBatchCallback; rw [hc]

theorem qbatchCb_nocred (qs : List (String × Option String))
    (hc : presentCred env.BRIGHTDATA_API_TOKEN = none) :
    searchEngineBatchCallback env qs up = ([], .error "BRIGHTDATA_API_TOKEN not configured") := by
  unfold searchEngineBatchCallback; rw [hc]

theorem resolveCb_upfail (q e : String) (hup : ∀ r, up r = .error e) :
    (resolveLibraryIdCallback env q up).2 = .error e ∨
      (resolveLibraryIdCallback env q up).1 = [] := by
  unfold resolveLibraryIdCallback
  cases hc : presentCred env.CONTEXT7_API_KEY with
  | none => right; rfl
  | some k => dsimp only; rw [hup]; left; rfl

theorem docsCb_upfail (i : String) (t : Option String) (n : Option Int) (e : String)
    (hup : ∀ r, up r = .error e) :
    (getLibraryDocsCallback env i t n up).2 = .error e ∨
      (getLibraryDocsCallback env i t n up).1 = [] := by
  unfold getLibraryDocsCallback
  cases hc : presentCred env.CONTEXT7_API_KEY with
  | none => right; rfl
  | some k => dsimp only; rw [hup]; left; rfl

theorem perplexityCb_upfail (model q e : String) (hup : ∀ r, up r = .error e) :
    (perplexityCallback model env q up).2 = .error e ∨
      (perplexityCallback model env q up).1 = [] := by
  unfold perplexityCallback
  cases hc : presentCred env.PERPLEXITY_API_KEY with
  | none => right; rfl
  | some k => dsimp only; rw [hup]; left; rfl

theorem sengineCb_notrace (q : String) (e : Option String) :
    (searchEngineCallback env q e up).1 = [] := by
  unfold searchEngineCallback
  cases hc : presentCred env.BRIGHTDATA_API_TOKEN <;> rfl

theorem smdCb_notrace (u : String) : (scrapeAsMarkdownCallback env u up).1 = [] := by
  unfold scrapeAsMarkdownCallback
  cases hc : presentCred env.BRIGHTDATA_API_TOKEN <;> rfl

theorem sbatchCb_notrace (us : List String) : (scrapeBatchCallback env us up).1 = [] := by
  unfold scrapeBatchCallback
  cases hc : presentCred env.BRIGHTDATA_API_TOKEN <;> rfl

theorem qbatchCb_notrace (qs : List (String × Option String)) :
    (searchEngineBatchCallback env qs up).1 = [] := by
  unfold searchEngineBatchCallback
  cases hc : presentCred env.BRIGHTDATA_API_TOKEN <;> rfl

theorem resolveCb_ok (q : String) (reqs : List HttpRequest) (s : ToolSuccess)
    (h : resolveLibraryIdCallback env q up = (reqs, .ok s)) :
    s.contentText = Json.stringifyPretty 0 s.structuredContent := by
  unfold resolveLibraryIdCallback at h
  dsimp only at h
  repeat' split at h
  all_goals
    injection h with h1 h2
  all_goals
    first
    | exact Except.noConfusion h2
    | (injection h2 with h3
       subst h3
       rfl)

theorem docsCb_ok (i : String) (t : Option String) (n : Option Int)
    (reqs : List HttpRequest) (s : ToolSuccess)
    (h : getLibraryDocsCallback env i t n up = (reqs, .ok s)) :
    s.contentText = Json.stringifyPretty 0 s.structuredContent := by
  unfold getLibraryDocsCallback at h
  dsimp only at h
  repeat' split at h
  all_goals
    injection h with h1 h2
  all_goals
    first
    | exact Except.noConfusion h2
    | (injection h2 with h3
       subst h3
       rfl)

theorem perplexityCb_ok (model q : String) (reqs : List HttpRequest) (s : ToolSuccess)
    (h : perplexityCallback model env q up = (reqs, .ok s)) :
    s.contentText = Json.stringify s.structuredContent := by
  unfold perplexityCallback at h
  dsimp only at h
  repeat' split at h
  all_goals
    injection h with h1 h2
  all_goals
    first
    | exact Except.noConfusion h2
    | (injection h2 with h3
       subst h3
       rfl)

theorem sengineCb_ok (q : String) (e : Option String) (reqs : List HttpRequest)
    (s : ToolSuccess) (h : searchEngineCallback env q e up = (reqs, .ok s)) :
    s.contentText = Json.stringify s.structuredContent := by
  unfold searchEngineCallback at h
  split at h
  · exact absurd h (by simp)
  · simp only [Prod.mk.injEq, Except.ok.injEq] at h
    obtain ⟨-, h2⟩ := h
    subst h2
    rfl

theorem smdCb_ok (u : String) (reqs : List HttpRequest) (s : ToolSuccess)
    (h : scrapeAsMarkdownCallback env u up = (reqs, .ok s)) :
    s.contentText = Json.stringify s.structuredContent := by
  unfold scrapeAsMarkdownCallback at h
  split at h
  · exact absurd h (by simp)
  · simp only [Prod.mk.injEq, Except.ok.injEq] at h
    obtain ⟨-, h2⟩ := h
    subst h2
    rfl

theorem sbatchCb_ok (us : List String) (reqs : List HttpRequest) (s : ToolSuccess)
    (h : scrapeBatchCallback env us up = (reqs, .ok s)) :
    s.contentText = Json.stringify s.structuredContent := by
  unfold scrapeBatchCallback at h
  split at h
  · exact absurd h (by simp)
  · simp only [Prod.mk.injEq, Except.ok.injEq] at h
    obtain ⟨-, h2⟩ := h
    subst h2
    rfl

theorem qbatchCb_ok (qs : List (String × Option String)) (reqs : List HttpRequest)
    (s : ToolSuccess) (h : searchEngineBatchCallback env qs up = (reqs, .ok s)) :
    s.contentText = Json.stringify s.structuredContent := by
  unfold searchEngineBatchCallback at h
  split at h
  · exact absurd h (by simp)
  · simp only [Prod.mk.injEq, Except.ok.injEq] at h
    obtain ⟨-, h2⟩ := h
    subst h2
    rfl

theorem resolveCb_env (q : String) (hk : env1.CONTEXT7_API_KEY = env2.CONTEXT7_API_KEY) :
    resolveLibraryIdCallback env1 q up = resolveLibraryIdCallback env2 q up := by
  unfold resolveLibraryIdCallback; rw [hk]

theorem docsCb_env (i : String) (t : Option String) (n : Option Int)
    (hk : env1.CONTEXT7_API_KEY = env2.CONTEXT7_API_KEY) :
    getLibraryDocsCallback env1 i t n up = getLibraryDocsCallback env2 i t n up := by
  unfold getLibraryDocsCallback; rw [hk]

theorem perplexityCb_env (model q : String)
    (hk : env1.PERPLEXITY_API_KEY = env2.PERPLEXITY_API_KEY) :
    perplexityCallback model env1 q up = perplexityCallback model env2 q up := by
  unfold perplexityCallback; rw [hk]

theorem sengineCb_env (q : String) (e : Option String)
    (hk : env1.BRIGHTDATA_API_TOKEN = env2.BRIGHTDATA_API_TOKEN) :
    searchEngineCallback env1 q e up = searchEngineCallback env2 q e up := by
  unfold searchEngineCallback; rw [hk]

theorem smdCb_env (u : String) (hk : env1.BRIGHTDATA_API_TOKEN = env2.BRIGHTDATA_API_TOKEN) :
    scrapeAsMarkdownCallback env1 u up = scrapeAsMarkdownCallback env2 u up := by
  unfold scrapeAsMarkdownCallback; rw [hk]

theorem sbatchCb_env (us : List String)
    (hk : env1.BRIGHTDATA_API_TOKEN = env2.BRIGHTDATA_API_TOKEN) :
    scrapeBatchCallback env1 us up = scrapeBatchCallback env2 us up := by
  unfold scrapeBatchCallback; rw [hk]

theorem qbatchCb_env (qs : List (String × Option String))
    (hk : env1.BRIGHTDATA_API_TOKEN = env2.BRIGHTDATA_API_TOKEN) :
    searchEngineBatchCallback env1 qs up = searchEngineBatchCallback env2 qs up := by
  unfold searchEngineBatchCallback; rw [hk]

end CallbackLemmas

/-- Boolean negation of truth is falsity. -/
theorem bool_ne_true {b : Bool} (h : ¬(b = true)) : b = false := by
  cases b
  · rfl
  · exact absurd rfl h

/-- Every registered descriptor is found under its own name. -/
theorem lookupTool_self (d : ToolDescriptor) (hd : d ∈ registry) :
    lookupTool d.name = some d := by
  rcases mem_registry_elim d hd with rfl | rfl | rfl | rfl | rfl | rfl | rfl | rfl | rfl | rfl
  · exact lookup_resolve
  · exact lookup_docs
  · exact lookup_psearch
  · exact lookup_pask
  · exact lookup_presearch
  · exact lookup_preason
  · exact lookup_sengine
  · exact lookup_smd
  · exact lookup_sbatch
  · exact lookup_qbatch

/-- Every adapter, on a missing (or empty, hence falsy) credential of
its own group, fails immediately with the named credential and issues
no upstream request — for any arguments whatsoever. -/
theorem runTool_nocred (d : ToolDescriptor) (hd : d ∈ registry) (env : Env)
    (args : Json) (up : Upstream)
    (hc : presentCred (groupCred env d.group) = none) :
    runTool d.name env args up =
      ([], .error (groupCredName d.group ++ " not configured")) := by
  rcases mem_registry_elim d hd with rfl | rfl | rfl | rfl | rfl | rfl | rfl | rfl | rfl | rfl
  · exact resolveCb_nocred env up _ hc
  · exact docsCb_nocred env up _ _ _ hc
  · exact perplexityCb_nocred env up _ _ hc
  · exact perplexityCb_nocred env up _ _ hc
  · exact perplexityCb_nocred env up _ _ hc
  · exact perplexityCb_nocred env up _ _ hc
  · exact sengineCb_nocred env up _ _ hc
  · exact smdCb_nocred env up _ hc
  · exact sbatchCb_nocred env up _ hc
  · exact qbatchCb_nocred env up _ hc

/-- If every upstream call fails, an adapter run either surfaces that
failure as its thrown error, or issued no upstream request at all. -/
theorem runTool_upfail (d : ToolDescriptor) (hd : d ∈ registry) (env : Env)
    (args : Json) (up : Upstream) (e : String) (hup : ∀ r, up r = .error e) :
    (runTool d.name env args up).2 = .error e ∨
      (runTool d.name env args up).1 = [] := by
  rcases mem_registry_elim d hd with rfl | rfl | rfl | rfl | rfl | rfl | rfl | rfl | rfl | rfl
  · exact resolveCb_upfail env up _ e hup
  · exact docsCb_upfail env up _ _ _ e hup
  · exact perplexityCb_upfail env up _ _ e hup
  · exact perplexityCb_upfail env up _ _ e hup
  · exact perplexityCb_upfail env up _ _ e hup
  · exact perplexityCb_upfail env up _ _ e hup
  · exact Or.inr (sengineCb_notrace env up _ _)
  · exact Or.inr (smdCb_notrace env up _)
  · exact Or.inr (sbatchCb_notrace env up _)
  · exact Or.inr (qbatchCb_notrace env up _)

/-- On the success path, every adapter's text content is the
`JSON.stringify` serialization (compact, or the two-space pretty form
used by the Context7 tools) of its structured output. -/
theorem runTool_ok (d : ToolDescriptor) (hd : d ∈ registry) (env : Env)
    (args : Json) (up : Upstream) (reqs : List HttpRequest) (s : ToolSuccess)
    (h : runTool d.name env args up = (reqs, .ok s)) :
    s.contentText = Json.stringify s.structuredContent ∨
      s.contentText = Json.stringifyPretty 0 s.structuredContent := by
  rcases mem_registry_elim d hd with rfl | rfl | rfl | rfl | rfl | rfl | rfl | rfl | rfl | rfl
  · exact Or.inr (resolveCb_ok env up _ reqs s h)
  · exact Or.inr (docsCb_ok env up _ _ _ reqs s h)
  · exact Or.inl (perplexityCb_ok env up _ _ reqs s h)
  · exact Or.inl (perplexityCb_ok env up _ _ reqs s h)
  · exact Or.inl (perplexityCb_ok env up _ _ reqs s h)
  · exact Or.inl (perplexityCb_ok env up _ _ reqs s h)
  · exact Or.inl (sengineCb_ok env up _ _ reqs s h)
  · exact Or.inl (smdCb_ok env up _ reqs s h)
  · exact Or.inl (sbatchCb_ok env up _ reqs s h)
  · exact Or.inl (qbatchCb_ok env up _ reqs s h)

/-- An adapter reads the environment only through its own group's
credential. -/
theorem runTool_env (d : ToolDescriptor) (hd : d ∈ registry) (env1 env2 : Env)
    (args : Json) (up : Upstream)
    (hk : groupCred env1 d.group = groupCred env2 d.group) :
    runTool d.name env1 args up = runTool d.name env2 args up := by
  rcases mem_registry_elim d hd with rfl | rfl | rfl | rfl | rfl | rfl | rfl | rfl | rfl | rfl
  · exact resolveCb_env env1 env2 up _ hk
  · exact docsCb_env env1 env2 up _ _ _ hk
  · exact perplexityCb_env env1 env2 up _ _ hk
  · exact perplexityCb_env env1 env2 up _ _ hk
  · exact perplexityCb_env env1 env2 up _ _ hk
  · exact perplexityCb_env env1 env2 up _ _ hk
  · exact sengineCb_env env1 env2 up _ _ hk
  · exact smdCb_env env1 env2 up _ hk
  · exact sbatchCb_env env1 env2 up _ hk
  · exact qbatchCb_env env1 env2 up _ hk

/-- Wrapping an adapter success whose output conforms to the output
schema yields the non-error tool result. -/
theorem wrapOutcome_ok (d : ToolDescriptor) (reqs : List HttpRequest) (s : ToolSuccess)
    (hov : validArgs d.outputSchema s.structuredContent = true) :
    wrapOutcome d (reqs, .ok s) =
      (reqs, .toolResult false s.contentText (some s.structuredContent)) := by
  unfold wrapOutcome
  dsimp only
  rw [hov]
  simp

/-- The schema `z.any()` accepts every JSON value. -/
theorem validatePrim_zany (j : Json) : validatePrim .zany j = true := by
  cases j <;> rfl

/-- An array of arbitrary JSON values validates element-wise against
`z.any()`. -/
theorem all_validateElem_zany (es : List Json) :
    es.all (validateElem (.prim .zany)) = true := by
  induction es with
  | nil => rfl
  | cons e es ih => simp [List.all_cons, ih, validateElem, validatePrim_zany]

/-- Recovering the string list from its JSON image. -/
theorem filterMap_str (urls : List String) :
    (urls.map Json.str).filterMap
      (fun e => match e with | .str s => some s | _ => none) = urls := by
  induction urls with
  | nil => rfl
  | cons u us ih => simp [List.filterMap_cons, ih]

/-- The extractor `getStrList` recovers the URLs the client sent. -/
theorem getStrList_map (k : String) (urls : List String) :
    (Json.obj [(k, .arr (urls.map Json.str))]).getStrList k = urls := by
  simp only [Json.getStrList, Json.getField]
  rw [show List.lookup k [(k, Json.arr (urls.map Json.str))] =
    some (Json.arr (urls.map Json.str)) by simp [List.lookup]]
  exact filterMap_str urls

/-- Element-wise URL validation of the JSON image of a string list. -/
theorem all_map_validateUrl (urls : List String) :
    (urls.map Json.str).all (validateElem (.prim .zstringUrl)) = urls.all isUrlLike := by
  induction urls with
  | nil => rfl
  | cons u us ih =>
    simp only [List.map_cons, List.all_cons, ih]
    rfl

/-- Ten well-formed URLs pass the `z.array(z.string().url()).max(10)`
input schema of the batch scraper. -/
theorem scrapeBatch_valid (urls : List String) (hlen : urls.length = 10)
    (hurl : ∀ u ∈ urls, isUrlLike u = true) :
    validArgs scrapeBatchTool.inputSchema
      (.obj [("urls", .arr (urls.map Json.str))]) = true := by
  show (validate (.zarray (.prim .zstringUrl) (some 10))
    (.arr (urls.map Json.str)) && true) = true
  simp only [validate, Bool.and_true]
  have h1 : lenOk (some 10) (urls.map Json.str).length = true := by
    simp [lenOk, List.length_map, hlen]
  rw [h1, Bool.true_and, all_map_validateUrl, List.all_eq_true]
  intro u hu
  exact hurl u hu

/-- Eleven or more elements violate the `.max(10)` bound, whatever the
elements are. -/
theorem scrapeBatch_invalid (urls : List Json) (hlen : 11 ≤ urls.length) :
    validArgs scrapeBatchTool.inputSchema (.obj [("urls", .arr urls)]) = false := by
  show (validate (.zarray (.prim .zstringUrl) (some 10)) (.arr urls) && true) = false
  simp only [validate, Bool.and_true]
  have h1 : lenOk (some 10) urls.length = false := by
    simp only [lenOk, decide_eq_false_iff_not]
    omega
  rw [h1, Bool.false_and]

/-- With the research credential present, the research callback issues
exactly one upstream request, to the chat-completions endpoint, whose
body carries the model chosen by the static mapping. -/
theorem perplexityCb_trace (model : String) (env : Env) (q k : String) (up : Upstream)
    (hc : presentCred env.PERPLEXITY_API_KEY = some k) :
    ∃ req, (perplexityCallback model env q up).1 = [req] ∧
      req.url = "https://api.perplexity.ai/chat/completions" ∧
      req.body.getField "model" = some (.str model) := by
  refine ⟨{ url := "https://api.perplexity.ai/chat/completions"
            body := .obj [("model", .str model),
              ("messages", .arr [.obj [("role", .str "user"), ("content", .str q)]])]
            headers := [("Authorization", "Bearer " ++ k),
                        ("Content-Type", "application/json")] }, ?_, rfl, rfl⟩
  unfold perplexityCallback
  rw [hc]
  dsimp only
  repeat' split
  all_goals rfl

/-- With the documentation credential present, the docs callback issues
exactly one upstream request whose body carries
`maxTokens = tokens || 5000`. -/
theorem docsCb_maxTokens (env : Env) (i : String) (t : Option String) (n : Option Int)
    (k : String) (up : Upstream) (hc : presentCred env.CONTEXT7_API_KEY = some k) :
    ∃ req, (getLibraryDocsCallback env i t n up).1 = [req] ∧
      req.body.getField "maxTokens" = some (.num (jsOrNum n 5000)) := by
  cases t with
  | none =>
    refine ⟨{ url := "https://context7.upstash.io/api/v1/docs"
              body := .obj [("libraryId", .str i), ("maxTokens", .num (jsOrNum n 5000))]
              headers := [("Authorization", "Bearer " ++ k)] }, ?_, rfl⟩
    unfold getLibraryDocsCallback
    rw [hc]
    dsimp only
    repeat' split
    all_goals rfl
  | some tv =>
    refine ⟨{ url := "https://context7.upstash.io/api/v1/docs"
              body := .obj [("libraryId", .str i), ("topic", .str tv),
                ("maxTokens", .num (jsOrNum n 5000))]
              headers := [("Authorization", "Bearer " ++ k)] }, ?_, rfl⟩
    unfold getLibraryDocsCallback
    rw [hc]
    dsimp only
    repeat' split
    all_goals rfl

/-! ## Claims -/

/-- C1: a tool invocation that fails at tool-execution level — the
provider credential absent from process configuration, or every
upstream call failing — returns a success-shaped protocol response
whose payload is marked "is error"; on the credential-absent path the
message names the missing credential. Once the name is registered and
the arguments validate, the outcome is always a tool result, never a
top-level protocol error and never an unhandled fault. -/
theorem tool_failures_stay_success_shaped :
    ∀ d ∈ registry, ∀ (env : Env) (up : Upstream) (args : Json),
      validArgs d.inputSchema args = true →
      (∃ isErr txt st, (dispatch env up d.name args).2 = .toolResult isErr txt st) ∧
      (presentCred (groupCred env d.group) = none →
        dispatch env up d.name args =
          ([], .toolResult true (groupCredName d.group ++ " not configured") none)) ∧
      (∀ e, (∀ r, up r = .error e) →
        (dispatch env up d.name args).2 = .toolResult true e none ∨
          (dispatch env up d.name args).1 = []) := by
  intro d hd env up args hv
  have hl := lookupTool_self d hd
  refine ⟨?_, ?_, ?_⟩
  · rw [dispatch_eq_of_valid hl env up args hv]
    exact wrapOutcome_shape _ _
  · intro hc
    rw [dispatch_eq_of_valid hl env up args hv, runTool_nocred d hd env args up hc]
    rfl
  · intro e hup
    rw [dispatch_eq_of_valid hl env up args hv]
    rcases runTool_upfail d hd env args up e hup with h | h
    · left
      rw [wrapOutcome_error _ _ _ h]
    · right
      rw [wrapOutcome_fst]
      exact h

/-- Witness for C1: invoking `perplexity_search` with a valid query,
no `PERPLEXITY_API_KEY`, and a failing upstream yields the
"is error"-marked success response naming the credential. -/
theorem tool_failures_stay_success_shaped_witness :
    dispatch ⟨some "c", none, some "b"⟩ (fun _ => .error "down") "perplexity_search"
        (.obj [("query", .str "hi")]) =
      ([], .toolResult true ("PERPLEXITY_API_KEY" ++ " not configured") none) :=
  (tool_failures_stay_success_shaped (perplexityDescriptor "perplexity_search" "sonar")
    (by decide) ⟨some "c", none, some "b"⟩ (fun _ => .error "down")
    (.obj [("query", .str "hi")]) (by rfl)).2.1 (by rfl)

/-- C2: for every adapter and any arguments whatsoever, an absent (or
empty, hence falsy) credential of the adapter's own group produces the
"missing credential" failure with an empty upstream-request trace — no
network call is issued, at the adapter as well as at dispatch level. -/
theorem missing_credential_short_circuits :
    ∀ d ∈ registry, ∀ (env : Env) (args : Json) (up : Upstream),
      presentCred (groupCred env d.group) = none →
      runTool d.name env args up =
        ([], .error (groupCredName d.group ++ " not configured")) ∧
      (dispatch env up d.name args).1 = [] := by
  intro d hd env args up hc
  refine ⟨runTool_nocred d hd env args up hc, ?_⟩
  by_cases hv : validArgs d.inputSchema args = true
  · rw [dispatch_eq_of_valid (lookupTool_self d hd) env up args hv, wrapOutcome_fst,
      runTool_nocred d hd env args up hc]
  · rw [dispatch_eq_of_invalid (lookupTool_self d hd) env up args (bool_ne_true hv)]

/-- Witness for C2: `mcp__brightdata__scrape_as_markdown` without
`BRIGHTDATA_API_TOKEN` fails naming the token and issues no upstream
request. -/
theorem missing_credential_short_circuits_witness :
    runTool "mcp__brightdata__scrape_as_markdown" ⟨some "c", some "p", none⟩
        (.obj [("url", .str "https://x.example/")]) (fun _ => .ok .null) =
      ([], .error ("BRIGHTDATA_API_TOKEN" ++ " not configured")) ∧
    (dispatch ⟨some "c", some "p", none⟩ (fun _ => .ok .null)
        "mcp__brightdata__scrape_as_markdown" (.obj [("url", .str "https://x.example/")])).1 =
      [] :=
  missing_credential_short_circuits scrapeAsMarkdownTool (by decide)
    ⟨some "c", some "p", none⟩ (.obj [("url", .str "https://x.example/")])
    (fun _ => .ok .null) (by rfl)

/-- C3: dispatching a name that is not one of the ten registered tool
names yields a protocol-level "method not found" error with an empty
upstream trace, for every environment, upstream behavior and argument
object — no adapter is invoked. -/
theorem unknown_tool_method_not_found :
    ∀ (name : String), name ∉ registry.map (fun d => d.name) →
      ∀ (env : Env) (up : Upstream) (args : Json),
        dispatch env up name args =
          ([], .protocolError .methodNotFound ("Tool " ++ name ++ " not found")) := by
  intro name h env up args
  exact dispatch_eq_of_unknown (lookupTool_eq_none h) env up args

/-- Witness for C3: the name `no_such_tool` is rejected with a
method-not-found protocol error. -/
theorem unknown_tool_method_not_found_witness :
    dispatch ⟨some "c", some "p", some "b"⟩ (fun _ => .ok .null) "no_such_tool"
        (.obj []) =
      ([], .protocolError .methodNotFound ("Tool " ++ "no_such_tool" ++ " not found")) :=
  unknown_tool_method_not_found "no_such_tool" (by decide) ⟨some "c", some "p", some "b"⟩
    (fun _ => .ok .null) (.obj [])

/-- C5: the registry is one fixed catalog — the same on every request,
since it is a closed constant: exactly 10 descriptors with
pairwise-distinct names, partitioned into the three provider groups
with 2 documentation, 4 research and 4 web-data tools, every
description and both schemas non-empty; the tools listing returns
exactly this set. -/
theorem registry_fixed_ten_tools :
    registry.length = 10 ∧
    (registry.map (fun d => d.name)).Nodup ∧
    (registry.filter (fun d => d.group == Group.context7)).length = 2 ∧
    (registry.filter (fun d => d.group == Group.perplexity)).length = 4 ∧
    (registry.filter (fun d => d.group == Group.brightdata)).length = 4 ∧
    (∀ d ∈ registry, d.description ≠ "" ∧ d.inputSchema ≠ [] ∧ d.outputSchema ≠ []) ∧
    listTools = registry.map (fun d => (d.name, d.description, d.inputSchema, d.outputSchema)) := by
  refine ⟨rfl, by decide, rfl, rfl, rfl, by decide, rfl⟩

/-- C9: the dispatch result depends only on the invocation's arguments
and the credential of the tool's own provider group: two environments
agreeing on that group's credential produce identical results, whatever
the other two credentials are. -/
theorem result_depends_only_on_own_group_credential :
    ∀ d ∈ registry, ∀ (env1 env2 : Env) (up : Upstream) (args : Json),
      groupCred env1 d.group = groupCred env2 d.group →
      dispatch env1 up d.name args = dispatch env2 up d.name args := by
  intro d hd env1 env2 up args hk
  by_cases hv : validArgs d.inputSchema args = true
  · rw [dispatch_eq_of_valid (lookupTool_self d hd) env1 up args hv,
      dispatch_eq_of_valid (lookupTool_self d hd) env2 up args hv,
      runTool_env d hd env1 env2 args up hk]
  · rw [dispatch_eq_of_invalid (lookupTool_self d hd) env1 up args (bool_ne_true hv),
      dispatch_eq_of_invalid (lookupTool_self d hd) env2 up args (bool_ne_true hv)]

/-- Witness for C9: `perplexity_ask` behaves identically under two
environments that agree on `PERPLEXITY_API_KEY` but differ on both
other credentials. -/
theorem result_depends_only_on_own_group_credential_witness :
    dispatch ⟨some "c", some "p", some "b"⟩ (fun _ => .ok .null) "perplexity_ask"
        (.obj [("query", .str "q")]) =
      dispatch ⟨none, some "p", none⟩ (fun _ => .ok .null) "perplexity_ask"
        (.obj [("query", .str "q")]) :=
  result_depends_only_on_own_group_credential
    (perplexityDescriptor "perplexity_ask" "sonar-pro") (by decide)
    ⟨some "c", some "p", some "b"⟩ ⟨none, some "p", none⟩ (fun _ => .ok .null)
    (.obj [("query", .str "q")]) (by rfl)

/-- C4: an invocation of `mcp__brightdata__scrape_batch` whose `urls`
array has 11 or more elements fails validation with an "invalid params"
protocol classification before any upstream work — no adapter runs and
the trace is empty; with exactly 10 well-formed URLs validation passes
and the adapter body runs, producing its per-URL result object. -/
theorem scrape_batch_size_limit :
    (∀ (env : Env) (up : Upstream) (urls : List Json), 11 ≤ urls.length →
      dispatch env up "mcp__brightdata__scrape_batch" (.obj [("urls", .arr urls)]) =
        ([], .protocolError .invalidParams
          ("Invalid arguments for tool " ++ "mcp__brightdata__scrape_batch"))) ∧
    (∀ (env : Env) (up : Upstream) (urls : List String),
      urls.length = 10 → (∀ u ∈ urls, isUrlLike u = true) →
      validArgs scrapeBatchTool.inputSchema
        (.obj [("urls", .arr (urls.map Json.str))]) = true ∧
      ∀ tok, presentCred env.BRIGHTDATA_API_TOKEN = some tok →
        dispatch env up "mcp__brightdata__scrape_batch"
            (.obj [("urls", .arr (urls.map Json.str))]) =
          ([], .toolResult false
            (Json.stringify (.obj [("results", .arr (urls.map (fun url =>
              .obj [("url", .str url), ("status", .str "scraped")])))]))
            (some (.obj [("results", .arr (urls.map (fun url =>
              .obj [("url", .str url), ("status", .str "scraped")])))])))) := by
  constructor
  · intro env up urls hlen
    exact dispatch_eq_of_invalid lookup_sbatch env up _ (scrapeBatch_invalid urls hlen)
  · intro env up urls hlen hurl
    have hv := scrapeBatch_valid urls hlen hurl
    refine ⟨hv, ?_⟩
    intro tok hc
    rw [dispatch_eq_of_valid lookup_sbatch env up _ hv, runTool_sbatch,
      getStrList_map "urls" urls]
    unfold scrapeBatchCallback
    rw [hc]
    dsimp only
    have hov : validArgs scrapeBatchTool.outputSchema
        (Json.obj [("results", Json.arr (urls.map (fun url =>
          Json.obj [("url", Json.str url), ("status", Json.str "scraped")])))]) = true := by
      show (validate (.zarray (.prim .zany) none) (Json.arr (urls.map (fun url =>
        Json.obj [("url", Json.str url), ("status", Json.str "scraped")]))) && true) = true
      simp only [validate, Bool.and_true, lenOk, Bool.true_and]
      exact all_validateElem_zany _
    rw [wrapOutcome_ok scrapeBatchTool [] _ hov]

/-- Witness for C4: 11 copies of a URL are rejected as invalid params;
10 copies pass validation. -/
theorem scrape_batch_size_limit_witness :
    dispatch ⟨none, none, some "b"⟩ (fun _ => .ok .null) "mcp__brightdata__scrape_batch"
        (.obj [("urls", .arr (List.replicate 11 (.str "https://a.example/")))]) =
      ([], .protocolError .invalidParams
        ("Invalid arguments for tool " ++ "mcp__brightdata__scrape_batch")) ∧
    validArgs scrapeBatchTool.inputSchema
      (.obj [("urls", .arr ((List.replicate 10 "https://a.example/").map Json.str))]) =
      true :=
  ⟨scrape_batch_size_limit.1 ⟨none, none, some "b"⟩ (fun _ => .ok .null)
      (List.replicate 11 (.str "https://a.example/")) (by simp),
   (scrape_batch_size_limit.2 ⟨none, none, some "b"⟩ (fun _ => .ok .null)
      (List.replicate 10 "https://a.example/") (by simp) (by decide)).1⟩

/-- C6: with the research credential present, every research tool sends
exactly one upstream request to the chat-completions endpoint whose
model field equals the static `perplexityModels` entry for its name —
independent of the query arguments and of the other credentials. -/
theorem research_model_static_mapping :
    ∀ p ∈ perplexityModels, ∀ (env : Env) (k : String) (up : Upstream) (args : Json),
      presentCred env.PERPLEXITY_API_KEY = some k →
      validArgs (perplexityDescriptor p.1 p.2).inputSchema args = true →
      ∃ req, (dispatch env up p.1 args).1 = [req] ∧
        req.url = "https://api.perplexity.ai/chat/completions" ∧
        req.body.getField "model" = some (.str p.2) := by
  intro p hp env k up args hc hv
  simp only [perplexityModels, List.mem_cons, List.not_mem_nil, or_false] at hp
  rcases hp with rfl | rfl | rfl | rfl
  · rw [show (dispatch env up ("perplexity_search", "sonar").1 args).1 =
        (perplexityCallback "sonar" env ((args.getStr "query").getD "") up).1 by
      rw [dispatch_eq_of_valid lookup_psearch env up args hv, wrapOutcome_fst,
        runTool_psearch]]
    exact perplexityCb_trace "sonar" env _ k up hc
  · rw [show (dispatch env up ("perplexity_ask", "sonar-pro").1 args).1 =
        (perplexityCallback "sonar-pro" env ((args.getStr "query").getD "") up).1 by
      rw [dispatch_eq_of_valid lookup_pask env up args hv, wrapOutcome_fst,
        runTool_pask]]
    exact perplexityCb_trace "sonar-pro" env _ k up hc
  · rw [show (dispatch env up ("perplexity_research", "sonar-deep-research").1 args).1 =
        (perplexityCallback "sonar-deep-research" env ((args.getStr "query").getD "") up).1 by
      rw [dispatch_eq_of_valid lookup_presearch env up args hv, wrapOutcome_fst,
        runTool_presearch]]
    exact perplexityCb_trace "sonar-deep-research" env _ k up hc
  · rw [show (dispatch env up ("perplexity_reason", "sonar-reasoning-pro").1 args).1 =
        (perplexityCallback "sonar-reasoning-pro" env ((args.getStr "query").getD "") up).1 by
      rw [dispatch_eq_of_valid lookup_preason env up args hv, wrapOutcome_fst,
        runTool_preason]]
    exact perplexityCb_trace "sonar-reasoning-pro" env _ k up hc

/-- Witness for C6: `perplexity_research` sends model
`sonar-deep-research`. -/
theorem research_model_static_mapping_witness :
    ∃ req, (dispatch ⟨none, some "p", none⟩ (fun _ => .ok .null) "perplexity_research"
        (.obj [("query", .str "topic")])).1 = [req] ∧
      req.url = "https://api.perplexity.ai/chat/completions" ∧
      req.body.getField "model" = some (.str "sonar-deep-research") :=
  research_model_static_mapping ("perplexity_research", "sonar-deep-research") (by decide)
    ⟨none, some "p", none⟩ "p" (fun _ => .ok .null) (.obj [("query", .str "topic")])
    (by rfl) (by rfl)

/-- C7: for `mcp__brightdata__search_engine`, omitting `engine` gives
the adapter the same defaulted value as supplying `engine = "google"`
explicitly (`engine || 'google'`), and the whole invocation result is
identical, for every query, environment and upstream. -/
theorem engine_defaults_to_google :
    ∀ (env : Env) (up : Upstream) (q : String),
      jsOrStr none "google" = jsOrStr (some "google") "google" ∧
      dispatch env up "mcp__brightdata__search_engine" (.obj [("query", .str q)]) =
        dispatch env up "mcp__brightdata__search_engine"
          (.obj [("query", .str q), ("engine", .str "google")]) := by
  intro env up q
  refine ⟨rfl, ?_⟩
  unfold dispatch
  rw [lookup_sengine]
  rfl

/-- C8: every non-error (successful) tool result of dispatch carries a
structured output conforming to the tool's declared output schema
together with a single text entry that is exactly the JSON
serialization of that same structured object (compact, or the
two-space-indent form the Context7 tools use). -/
theorem success_results_carry_structured_and_text :
    ∀ d ∈ registry, ∀ (env : Env) (up : Upstream) (args : Json)
      (reqs : List HttpRequest) (txt : String) (st : Option Json),
      dispatch env up d.name args = (reqs, .toolResult false txt st) →
      ∃ out, st = some out ∧ validArgs d.outputSchema out = true ∧
        (txt = Json.stringify out ∨ txt = Json.stringifyPretty 0 out) := by
  intro d hd env up args reqs txt st h
  obtain ⟨hv, s, hrun, htxt, hst, hov⟩ := dispatch_success_inv (lookupTool_self d hd) h
  subst htxt
  exact ⟨s.structuredContent, hst, hov, runTool_ok d hd env args up reqs s hrun⟩

/-- Witness for C8: a successful `mcp__brightdata__search_engine`
result carries its structured output and its compact serialization. -/
theorem success_results_carry_structured_and_text_witness :
    ∃ out, (some (Json.obj [("results", Json.arr [Json.str "Searched google for: x"])]) =
        some out) ∧
      validArgs searchEngineTool.outputSchema out = true ∧
      (Json.stringify (Json.obj [("results", Json.arr [Json.str "Searched google for: x"])]) =
          Json.stringify out ∨
        Json.stringify (Json.obj [("results", Json.arr [Json.str "Searched google for: x"])]) =
          Json.stringifyPretty 0 out) :=
  success_results_carry_structured_and_text searchEngineTool (by decide)
    ⟨none, none, some "b"⟩ (fun _ => .ok .null) (.obj [("query", .str "x")]) []
    (Json.stringify (Json.obj [("results", Json.arr [Json.str "Searched google for: x"])]))
    (some (Json.obj [("results", Json.arr [Json.str "Searched google for: x"])]))
    (by rfl)

/-- C10: with the documentation credential present,
`mcp__context7__get-library-docs` sends `maxTokens = 5000` upstream
both when `tokens` is omitted and when it is supplied as `0`
(`tokens || 5000` treats `0` as falsy), and no `tokens` value can make
the effective budget `0`. -/
theorem token_budget_never_zero :
    ∀ (env : Env) (k : String) (up : Upstream) (i : String),
      presentCred env.CONTEXT7_API_KEY = some k →
      (∃ req, (dispatch env up "mcp__context7__get-library-docs"
          (.obj [("context7CompatibleLibraryID", .str i)])).1 = [req] ∧
        req.body.getField "maxTokens" = some (.num 5000)) ∧
      (∃ req, (dispatch env up "mcp__context7__get-library-docs"
          (.obj [("context7CompatibleLibraryID", .str i), ("tokens", .num 0)])).1 = [req] ∧
        req.body.getField "maxTokens" = some (.num 5000)) ∧
      (∀ t : Int, ∀ req ∈ (dispatch env up "mcp__context7__get-library-docs"
          (.obj [("context7CompatibleLibraryID", .str i), ("tokens", .num t)])).1,
        req.body.getField "maxTokens" ≠ some (.num 0)) := by
  intro env k up i hc
  refine ⟨?_, ?_, ?_⟩
  · rw [show (dispatch env up "mcp__context7__get-library-docs"
        (.obj [("context7CompatibleLibraryID", .str i)])).1 =
        (getLibraryDocsCallback env i none none up).1 by
      rw [dispatch_eq_of_valid lookup_docs env up _ (by rfl), wrapOutcome_fst,
        runTool_docs]
      rfl]
    exact docsCb_maxTokens env i none none k up hc
  · rw [show (dispatch env up "mcp__context7__get-library-docs"
        (.obj [("context7CompatibleLibraryID", .str i), ("tokens", .num 0)])).1 =
        (getLibraryDocsCallback env i none (some 0) up).1 by
      rw [dispatch_eq_of_valid lookup_docs env up _ (by rfl), wrapOutcome_fst,
        runTool_docs]
      rfl]
    exact docsCb_maxTokens env i none (some 0) k up hc
  · intro t req hreq
    rw [show (dispatch env up "mcp__context7__get-library-docs"
        (.obj [("context7CompatibleLibraryID", .str i), ("tokens", .num t)])).1 =
        (getLibraryDocsCallback env i none (some t) up).1 by
      rw [dispatch_eq_of_valid lookup_docs env up _ (by rfl), wrapOutcome_fst,
        runTool_docs]
      rfl] at hreq
    obtain ⟨req0, htr, hmax⟩ := docsCb_maxTokens env i none (some t) k up hc
    rw [htr] at hreq
    simp only [List.mem_singleton] at hreq
    subst hreq
    rw [hmax]
    intro hcontra
    simp only [Option.some.injEq] at hcontra
    have hz : jsOrNum (some t) 5000 = 0 := by injection hcontra
    simp only [jsOrNum] at hz
    by_cases h0 : t = 0
    · rw [if_pos h0] at hz
      exact absurd hz (by decide)
    · rw [if_neg h0] at hz
      exact h0 hz

/-- Witness for C10: a call with `tokens = 0` still sends
`maxTokens = 5000`. -/
theorem token_budget_never_zero_witness :
    ∃ req, (dispatch ⟨some "k", none, none⟩ (fun _ => .ok .null)
        "mcp__context7__get-library-docs"
        (.obj [("context7CompatibleLibraryID", .str "/org/proj"),
          ("tokens", .num 0)])).1 = [req] ∧
      req.body.getField "maxTokens" = some (.num 5000) :=
  (token_budget_never_zero ⟨some "k", none, none⟩ "k" (fun _ => .ok .null) "/org/proj"
    (by rfl)).2.1

end McpApp
